import Mathlib

/-!
Verification of the multi-model response coordinator
(`server/ai/multi-model-coordinator.ts`).

The TypeScript class `MultiModelCoordinator` is embedded shallowly:

* pure methods (`analyzeQueryType`, `scoreResponse`, the reducers) become
  Lean functions transcribed clause by clause from the source;
* `this.models` becomes the constant `coordinatorModels`, and the methods
  that read it take the model list as an explicit argument;
* the asynchronous dispatch (`getMultipleResponses`) is embedded by
  abstracting each provider call into a `ProviderOutcome`: a provider
  either settles with text and a duration, or fails (a thrown error or
  the loss of the `Promise.race` against the timeout timer, which the
  `catch` block treats identically);
* the streaming path is embedded by abstracting an adapter into the list
  of callback events it emits, and recording which providers the
  coordinator invokes.

JavaScript details reproduced exactly: `Array.prototype.sort` is stable
(modeled by `List.insertionSort`, which is stable for the comparator
used), `Array.prototype.reduce` without an initial value seeds with the
first element, and `reduce` **with** an initial value folds the whole
array from that seed — including the seed `responses[0]` that
`selectBestResponse` passes when computing the runner-up.
`x.split(/\s+/)` is modeled by `jsSplitWs` (runs of whitespace collapse,
boundary runs contribute one empty string, `"".split` gives `[""]`), and
`uniq > len * 0.3` by `10 * uniq > 3 * len`, which agrees with the
IEEE-754 evaluation for every integer `len < 2^53`.
-/

/-- `s.includes(pat)` of JavaScript: `pat` occurs contiguously in `s`. -/
def strIncludes (s pat : String) : Bool :=
  decide (pat.toList <:+: s.toList)

/-- `s.toLowerCase()` of JavaScript: `Char.toLower` on every character.
(Defined over the character list so that it evaluates inside the
kernel; `String.toLower` itself is the same map.) -/
def strToLower (s : String) : String :=
  (s.toList.map Char.toLower).asString

/-- One entry of the coordinator's `this.models` registry. -/
structure ModelDesc where
  id : String
  category : String
  strength : String
deriving DecidableEq, Repr

/-- The registry literal at the top of `MultiModelCoordinator`. -/
def coordinatorModels : List ModelDesc :=
  [ ⟨"gpt-4o", "general", "reasoning"⟩,
    ⟨"claude-3-7-sonnet-20250219", "general", "analysis"⟩,
    ⟨"deepseek-coder", "code", "programming"⟩,
    ⟨"grok-2-1212", "realtime", "current_events"⟩,
    ⟨"gemini-1.5-pro", "multimodal", "vision"⟩,
    ⟨"llama-3.1-sonar-large-128k-online", "search", "research"⟩ ]

/-- `analyzeQueryType`: keyword containment on the lower-cased query,
first matching branch wins, `"general"` otherwise. -/
def analyzeQueryType (query : String) : String :=
  if strIncludes (strToLower query) "code" || strIncludes (strToLower query) "program" ||
     strIncludes (strToLower query) "debug" || strIncludes (strToLower query) "function" then "code"
  else if strIncludes (strToLower query) "current" || strIncludes (strToLower query) "latest" ||
     strIncludes (strToLower query) "news" || strIncludes (strToLower query) "recent" then "realtime"
  else if strIncludes (strToLower query) "research" || strIncludes (strToLower query) "search" ||
     strIncludes (strToLower query) "find" || strIncludes (strToLower query) "information" then "search"
  else if strIncludes (strToLower query) "image" || strIncludes (strToLower query) "visual" ||
     strIncludes (strToLower query) "picture" || strIncludes (strToLower query) "analyze" then "multimodal"
  else if strIncludes (strToLower query) "analyze" || strIncludes (strToLower query) "review" ||
     strIncludes (strToLower query) "explain" || strIncludes (strToLower query) "compare" then "analysis"
  else "general"

/-- The per-model score computed inside the `sort` comparators of
`selectModelsForQuery`, one branch per `switch` case (the `default`
branch also serves `"analysis"` and every other unlisted type). -/
def modelFitness (queryType : String) (m : ModelDesc) : Nat :=
  if queryType = "code" then
    (if m.category = "code" then 3 else if m.strength = "programming" then 2 else 1)
  else if queryType = "realtime" then
    (if m.category = "realtime" then 3 else if m.category = "search" then 2 else 1)
  else if queryType = "search" then
    (if m.category = "search" then 3 else if m.category = "realtime" then 2 else 1)
  else if queryType = "multimodal" then
    (if m.category = "multimodal" then 3 else if m.strength = "vision" then 2 else 1)
  else
    (if m.category = "general" then 2 else 1)

/-- JavaScript's stable `sort((a, b) => f(b) - f(a))`: descending by
`f`, ties keeping the original order. `List.insertionSort` with the
reflexive relation `f b ≤ f a` realizes exactly that order. -/
def sortByDesc {α : Type} (f : α → Nat) (l : List α) : List α :=
  List.insertionSort (fun a b => f b ≤ f a) l

/-- `selectModelsForQuery`, with `this.models` as the `models` argument:
stable-sort by fitness for the query type, then `slice(0, count)`. -/
def selectModelsForQuery (queryType : String) (count : Nat)
    (models : List ModelDesc) : List ModelDesc :=
  (sortByDesc (modelFitness queryType) models).take count

/-- The additions made by the `score +=` statements of `scoreResponse`
before the speed bonus, starting from the base score 50. -/
def qualityScore (response category : String) : Nat :=
  50
  + (if response.length > 100 then 10 else 0)
  + (if response.length > 500 then 10 else 0)
  + (if strIncludes response "```" then 15 else 0)
  + (if strIncludes response "http" then 5 else 0)
  + (if category = "code" then
       (if strIncludes response "function" || strIncludes response "class" then 20 else 0)
     else if category = "search" then
       (if strIncludes response "according to" || strIncludes response "source" then 15 else 0)
     else if category = "realtime" then
       (if strIncludes response "2024" || strIncludes response "2025" then 10 else 0)
     else 0)

/-- The two speed-bonus `if` statements of `scoreResponse`. -/
def speedBonus (executionTime : Nat) : Nat :=
  (if executionTime < 5000 then 5 else 0) + (if executionTime < 2000 then 10 else 0)

/-- The accumulated score of `scoreResponse` before the final clamp. -/
def scoreRaw (response category : String) (executionTime : Nat) : Nat :=
  qualityScore response category + speedBonus executionTime

/-- `scoreResponse`: the accumulated score, clamped by `Math.min(100, score)`. -/
def scoreResponse (response category : String) (executionTime : Nat) : Nat :=
  min 100 (scoreRaw response category executionTime)

/-- One field set of the `ModelResponse` interface. -/
structure ModelResponse where
  modelId : String
  response : String
  score : Nat
  reasoning : String
  executionTime : Nat
deriving DecidableEq, Repr

/-- How one provider call settles inside `getMultipleResponses`: either
the provider's promise wins the race and fulfills with text, or the
`catch` block runs (a thrown provider error, or the timeout promise's
rejection) with the error's message. -/
inductive ProviderOutcome where
  | ok (text : String) (time : Nat)
  | err (msg : String) (time : Nat)
deriving DecidableEq, Repr

/-- The body of the `map` callback of `getMultipleResponses`: a settled
call becomes a scored entry, a caught error becomes the zero-scored
entry with the error message as rationale. -/
def dispatchOne (m : ModelDesc) : ProviderOutcome → ModelResponse
  | .ok text time =>
      ⟨m.id, text, scoreResponse text m.category time, m.strength ++ " specialization", time⟩
  | .err msg time =>
      ⟨m.id, "", 0, "Error: " ++ msg, time⟩

/-- `getMultipleResponses`: one entry per selected model, then
`results.filter(r => r.response.length > 0)`. -/
def getMultipleResponses (pairs : List (ModelDesc × ProviderOutcome)) : List ModelResponse :=
  (pairs.map (fun p => dispatchOne p.1 p.2)).filter (fun r => decide (0 < r.response.length))

/-- The fallback literal returned by every reducer on an empty set. -/
def apologyString : String :=
  "I apologize, but I'm unable to generate a response at the moment."

/-- `x.split(/\s+/)` of JavaScript: maximal whitespace runs separate the
tokens, a leading (resp. trailing) whitespace run contributes one empty
string, and the empty string splits to `[""]`. -/
def jsSplitWs (s : String) : List String :=
  if s = "" then [""]
  else
    (if (s.toList.head?.map Char.isWhitespace).getD false then [""] else [])
    ++ (((s.toList.splitOnP Char.isWhitespace).map List.asString).filter (fun w => w ≠ ""))
    ++ (if (s.toList.getLast?.map Char.isWhitespace).getD false then [""] else [])

/-- `extractUniqueInsights`: tokenize both texts lower-cased by
whitespace; when strictly more than 30% of the additional text's tokens
are absent from the main text's token set, return the first 200
characters of the additional text (with an ellipsis when truncated). -/
def extractUniqueInsights (main additional : String) : Option String :=
  let mainWords := jsSplitWs (strToLower main)
  let additionalWords := jsSplitWs (strToLower additional)
  let uniqueWords := additionalWords.filter (fun w => ¬ mainWords.contains w)
  if 10 * uniqueWords.length > 3 * (jsSplitWs additional).length then
    some ((additional.toList.take 200).asString ++ (if additional.length > 200 then "..." else ""))
  else
    none

/-- `combineTopResponses`: the first response's full text, extended by a
labeled unique-insight excerpt for each later response that has one
(always measured against the first response's text). -/
def combineTopResponses : List ModelResponse → String
  | [] => ""
  | main :: rest =>
      rest.foldl
        (fun combined r =>
          match extractUniqueInsights main.response r.response with
          | some insight =>
              combined ++ "\n\n**Additional Insight (" ++ r.modelId ++ "):** " ++ insight
          | none => combined)
        main.response

/-- `Array.prototype.reduce` with the highest-score-wins callback of
`selectBestResponse`: fold the array from the given seed. -/
def reduceBest (l : List ModelResponse) (seed : ModelResponse) : ModelResponse :=
  l.foldl (fun prev current => if current.score > prev.score then current else prev) seed

/-- `selectBestResponse`. The winner comes from a seedless `reduce`
(seed = first element, fold over the rest); the runner-up `reduce` runs
over the entries with a different model id but — exactly as in the
source — receives `responses[0]` as its initial value. -/
def selectBestResponse (responses : List ModelResponse) : String :=
  match responses with
  | [] => apologyString
  | r0 :: rest =>
      let best := reduceBest rest r0
      let runnerUp := reduceBest ((r0 :: rest).filter (fun r => r.modelId ≠ best.modelId)) r0
      if ((best.score : Int) - (runnerUp.score : Int)).natAbs < 10 then
        combineTopResponses [best, runnerUp]
      else
        best.response

/-- `generateConsensusResponse`: fallback on empty, identity on a
singleton, otherwise combine the three top-scored responses. -/
def generateConsensusResponse (responses : List ModelResponse) : String :=
  match responses with
  | [] => apologyString
  | [r] => r.response
  | _ =>
      combineTopResponses ((sortByDesc ModelResponse.score responses).take 3)

/-- `combineParallelResponses`: fallback on empty, otherwise the header
followed by every response (descending by score) with its id and score. -/
def combineParallelResponses (responses : List ModelResponse) : String :=
  if responses.isEmpty then apologyString
  else
    (sortByDesc ModelResponse.score responses).foldl
      (fun combined r =>
        combined ++ "**" ++ r.modelId ++ " (Score: " ++ toString r.score ++ "):**\n"
          ++ r.response ++ "\n\n")
      "**Comprehensive AI Analysis:**\n\n"

/-- The non-streaming `generateBestResponse` path: classify the last
message, select the models (`options.minModels || 3`), dispatch, and
reduce by the requested strategy (the `default` case repeats `best`).
`outcomes` abstracts how each provider's racing call settles. -/
def generateBestResponse (messages : List (String × String)) (strategy : String)
    (minModels : Nat) (outcomes : ModelDesc → ProviderOutcome) : String :=
  let query := ((messages.getLast?).map Prod.snd).getD ""
  let selected := selectModelsForQuery (analyzeQueryType query)
    (if minModels = 0 then 3 else minModels) coordinatorModels
  let responses := getMultipleResponses (selected.map (fun m => (m, outcomes m)))
  if strategy = "best" then selectBestResponse responses
  else if strategy = "consensus" then generateConsensusResponse responses
  else if strategy = "parallel" then combineParallelResponses responses
  else selectBestResponse responses

/-- A callback fired on the caller's `StreamingOptions`. -/
inductive StreamEvent where
  | chunk (text : String)
  | complete
  | error (msg : String)
deriving DecidableEq, Repr

/-- Observable behavior of one streaming coordination: which model ids
were invoked, and the callback events the caller received. -/
structure StreamingRun where
  invoked : List String
  callerEvents : List StreamEvent
deriving DecidableEq, Repr

/-- `generateStreamingConsensus`: invoke `selectedModels[0]` only and
relay each of its adapter callbacks one-to-one to the caller's
callbacks. With an empty selection, reading `.provider` off
`undefined` throws inside the `try`, so the caller sees one error
event. `adapterEvents m` abstracts the callback sequence the adapter of
`m` emits for this conversation. -/
def generateStreamingConsensus (selectedModels : List ModelDesc)
    (adapterEvents : ModelDesc → List StreamEvent) : StreamingRun :=
  match selectedModels with
  | [] => ⟨[], [StreamEvent.error "TypeError"]⟩
  | primary :: _ => ⟨[primary.id], adapterEvents primary⟩

/-- The streaming branch of `generateBestResponse` (taken whenever a
`streaming` argument is present, before any dispatch or scoring). -/
def generateBestResponseStreaming (messages : List (String × String)) (minModels : Nat)
    (adapterEvents : ModelDesc → List StreamEvent) : StreamingRun :=
  let query := ((messages.getLast?).map Prod.snd).getD ""
  let selected := selectModelsForQuery (analyzeQueryType query)
    (if minModels = 0 then 3 else minModels) coordinatorModels
  generateStreamingConsensus selected adapterEvents

/-- Modelled from the spec (§4.1): the classifier restated as a
first-match scan of the priority vocabulary, for comparison with
`analyzeQueryType`. -/
def specCategories : List (String × List String) :=
  [ ("code", ["code", "program", "debug", "function"]),
    ("realtime", ["current", "latest", "news", "recent"]),
    ("search", ["research", "search", "find", "information"]),
    ("multimodal", ["image", "visual", "picture", "analyze"]),
    ("analysis", ["analyze", "review", "explain", "compare"]) ]

/-- First pair whose keyword list has a hit wins; `"general"` otherwise. -/
def firstMatch (lower : String) : List (String × List String) → String
  | [] => "general"
  | (cat, kws) :: rest =>
      if kws.any (fun kw => strIncludes lower kw) then cat else firstMatch lower rest

/-- Modelled from the spec (§4.1): the whole classifier contract. -/
def specClassify (q : String) : String :=
  firstMatch (strToLower q) specCategories

/-! ### Helper lemmas -/

lemma fifty_le_qualityScore (r c : String) : 50 ≤ qualityScore r c := by
  unfold qualityScore
  split_ifs <;> omega

lemma fifty_le_scoreRaw (r c : String) (t : Nat) : 50 ≤ scoreRaw r c t :=
  le_trans (fifty_le_qualityScore r c) (Nat.le_add_right _ _)

lemma fifty_le_scoreResponse (r c : String) (t : Nat) : 50 ≤ scoreResponse r c t :=
  le_min (by omega) (fifty_le_scoreRaw r c t)

lemma scoreResponse_le_100 (r c : String) (t : Nat) : scoreResponse r c t ≤ 100 :=
  min_le_left _ _

lemma sortByDesc_length {α : Type} (f : α → Nat) (l : List α) :
    (sortByDesc f l).length = l.length :=
  List.length_insertionSort _ l

open List in
lemma sortByDesc_perm {α : Type} (f : α → Nat) (l : List α) : sortByDesc f l ~ l :=
  List.perm_insertionSort _ l

lemma sortByDesc_sorted {α : Type} (f : α → Nat) (l : List α) :
    List.Sorted (fun a b => f b ≤ f a) (sortByDesc f l) := by
  haveI : IsTotal α (fun a b => f b ≤ f a) := ⟨fun a b => Nat.le_total (f b) (f a)⟩
  haveI : IsTrans α (fun a b => f b ≤ f a) := ⟨fun a b c h1 h2 => le_trans h2 h1⟩
  exact List.sorted_insertionSort _ l

lemma filter_orderedInsert {α : Type} (f : α → Nat) (v : Nat) (x : α) (l : List α) :
    (List.orderedInsert (fun a b => f b ≤ f a) x l).filter (fun m => decide (f m = v))
      = ((x :: l).filter (fun m => decide (f m = v))) := by
  induction l with
  | nil => rfl
  | cons y ys ih =>
      rw [List.orderedInsert]
      by_cases hxy : f y ≤ f x
      · rw [if_pos hxy]
      · rw [if_neg hxy]
        simp only [List.filter_cons]
        rw [ih]
        simp only [List.filter_cons]
        by_cases hy : f y = v
        · have hx : ¬ f x = v := fun h => hxy (by omega)
          simp [hy, hx]
        · by_cases hx : f x = v
          · simp [hy, hx]
          · simp [hy, hx]

lemma sortByDesc_filter {α : Type} (f : α → Nat) (v : Nat) (l : List α) :
    (sortByDesc f l).filter (fun m => decide (f m = v))
      = l.filter (fun m => decide (f m = v)) := by
  induction l with
  | nil => rfl
  | cons x xs ih =>
      show (List.orderedInsert _ x (List.insertionSort _ xs)).filter _ = _
      rw [filter_orderedInsert]
      simp only [List.filter_cons]
      rw [show (List.insertionSort (fun a b => f b ≤ f a) xs).filter
            (fun m => decide (f m = v)) = xs.filter (fun m => decide (f m = v)) from ih]

lemma dispatchOne_modelId (m : ModelDesc) (o : ProviderOutcome) :
    (dispatchOne m o).modelId = m.id := by
  cases o <;> rfl

lemma getMultipleResponses_cons (p : ModelDesc × ProviderOutcome)
    (ps : List (ModelDesc × ProviderOutcome)) :
    getMultipleResponses (p :: ps)
      = if 0 < (dispatchOne p.1 p.2).response.length
        then dispatchOne p.1 p.2 :: getMultipleResponses ps
        else getMultipleResponses ps := by
  simp only [getMultipleResponses, List.map_cons, List.filter_cons, decide_eq_true_eq]

lemma getMultipleResponses_all_err (pairs : List (ModelDesc × ProviderOutcome))
    (h : ∀ p ∈ pairs, ∃ msg t, p.2 = ProviderOutcome.err msg t) :
    getMultipleResponses pairs = [] := by
  induction pairs with
  | nil => rfl
  | cons p ps ih =>
      obtain ⟨msg, t, hp⟩ := h p (List.mem_cons_self p ps)
      have hd : dispatchOne p.1 p.2 = ⟨p.1.id, "", 0, "Error: " ++ msg, t⟩ := by
        rw [hp]
        rfl
      rw [getMultipleResponses_cons, hd,
        if_neg (show ¬ 0 < ("" : String).length by decide)]
      exact ih (fun q hq => h q (List.mem_cons_of_mem _ hq))

lemma string_length_pos (s : String) (h : s ≠ "") : 0 < s.length := by
  cases s with
  | mk data =>
      cases data with
      | nil => simp at h
      | cons c cs => simp [String.length]

lemma getMultipleResponses_length_all_ok (pairs : List (ModelDesc × ProviderOutcome))
    (h : ∀ p ∈ pairs, ∃ text t, p.2 = ProviderOutcome.ok text t ∧ text ≠ "") :
    (getMultipleResponses pairs).length = pairs.length := by
  induction pairs with
  | nil => rfl
  | cons p ps ih =>
      obtain ⟨text, t, hp, hne⟩ := h p (List.mem_cons_self p ps)
      have hd : dispatchOne p.1 p.2
          = ⟨p.1.id, text, scoreResponse text p.1.category t,
             p.1.strength ++ " specialization", t⟩ := by
        rw [hp]
        rfl
      rw [getMultipleResponses_cons, hd, if_pos (string_length_pos text hne)]
      simp only [List.length_cons]
      rw [ih (fun q hq => h q (List.mem_cons_of_mem _ hq))]

/-! ### Claim theorems -/

/-- C1 (code bug witness): in the `best` strategy, the output depends on
the ordering of the candidate list. With the winner listed first, the
runner-up `reduce` — seeded with `responses[0]`, i.e. the winner itself —
returns the winner, so the 74-scored response whose tokens are 100%
novel contributes no "Additional Insight"; with the runner-up listed
first, the very same candidate set produces the merged output the claim
describes for every ordering. -/
theorem selectBest_runner_up_order_dependent :
    selectBestResponse
        [⟨"a", "alpha beta gamma", 80, "r", 0⟩, ⟨"b", "delta epsilon zeta", 74, "r", 0⟩]
      = "alpha beta gamma"
    ∧ selectBestResponse
        [⟨"b", "delta epsilon zeta", 74, "r", 0⟩, ⟨"a", "alpha beta gamma", 80, "r", 0⟩]
      = "alpha beta gamma\n\n**Additional Insight (b):** delta epsilon zeta" :=
  ⟨by decide, by decide⟩

/-- C2: each non-streaming reducer maps the empty candidate list to the
fixed apology string, and the whole non-streaming coordination path
returns that string whenever every selected provider's call fails. -/
theorem reducers_empty_fallback :
    selectBestResponse [] = apologyString
    ∧ generateConsensusResponse [] = apologyString
    ∧ combineParallelResponses [] = apologyString
    ∧ ∀ (messages : List (String × String)) (strategy : String) (minModels : Nat)
        (outcomes : ModelDesc → ProviderOutcome),
        (∀ m, ∃ msg t, outcomes m = ProviderOutcome.err msg t) →
        generateBestResponse messages strategy minModels outcomes = apologyString := by
  refine ⟨rfl, rfl, rfl, ?_⟩
  intro messages strategy minModels outcomes h
  simp only [generateBestResponse]
  rw [getMultipleResponses_all_err]
  · split_ifs <;> rfl
  · intro p hp
    obtain ⟨m, hm, rfl⟩ := List.mem_map.mp hp
    exact h m

/-- C2 witness: a concrete all-failed round under the `best` strategy
degrades to the apology string. -/
theorem reducers_empty_fallback_witness :
    generateBestResponse [("user", "hi")] "best" 3
        (fun _ => ProviderOutcome.err "boom" 1) = apologyString :=
  reducers_empty_fallback.2.2.2 [("user", "hi")] "best" 3
    (fun _ => ProviderOutcome.err "boom" 1) (fun _ => ⟨"boom", 1, rfl⟩)

/-- C6: for every response text, category and execution time the score
is in [0, 100] (with 50 as the actual lower bound), equals the
accumulated bonuses clamped at 100, and the bounds hold for empty text. -/
theorem score_bounds :
    ∀ (response category : String) (executionTime : Nat),
      scoreResponse response category executionTime ≤ 100
      ∧ 50 ≤ scoreResponse response category executionTime
      ∧ scoreResponse response category executionTime
          = min 100 (scoreRaw response category executionTime)
      ∧ scoreResponse "" category executionTime ≤ 100 :=
  fun response category executionTime =>
    ⟨scoreResponse_le_100 response category executionTime,
     fifty_le_scoreResponse response category executionTime,
     rfl,
     scoreResponse_le_100 "" category executionTime⟩

/-- C9: the two speed thresholds apply independently and cumulatively —
relative to a run at 5000 ms (which earns no speed bonus), a time below
5000 ms adds 5, a time below 2000 ms adds a further 10, so a sub-2000 ms
run earns +15 before the clamp. -/
theorem speed_bonus_cumulative :
    ∀ (r c : String) (t : Nat),
      scoreRaw r c t
        = scoreRaw r c 5000 + (if t < 5000 then 5 else 0) + (if t < 2000 then 10 else 0)
      ∧ (t < 2000 → scoreRaw r c t = scoreRaw r c 5000 + 15)
      ∧ (2000 ≤ t → t < 5000 → scoreRaw r c t = scoreRaw r c 5000 + 5)
      ∧ (5000 ≤ t → scoreRaw r c t = scoreRaw r c 5000) := by
  intro r c t
  refine ⟨?_, ?_, ?_, ?_⟩ <;> intros <;> simp only [scoreRaw, speedBonus] <;>
    split_ifs <;> omega

/-- C9 witness: a 1500 ms run scores exactly 15 points above the
5000 ms baseline before the clamp. -/
theorem speed_bonus_cumulative_witness :
    scoreRaw "x" "general" 1500 = scoreRaw "x" "general" 5000 + 15 :=
  (speed_bonus_cumulative "x" "general" 1500).2.1 (by decide)

/-- C3: a dispatch round yields at most one entry per selected provider
(the surviving model ids form a sublist of the selected ids), exactly
the full set when every provider settles with non-empty text, a failed
call turns into the zero-scored empty entry carrying the error message
(later dropped by the filter), and in the concrete 3-provider round with
one "rate limited" failure exactly the two successful entries remain. -/
theorem dispatch_round_bounds :
    (∀ pairs : List (ModelDesc × ProviderOutcome),
        (getMultipleResponses pairs).length ≤ pairs.length)
    ∧ (∀ pairs : List (ModelDesc × ProviderOutcome),
        List.Sublist ((getMultipleResponses pairs).map ModelResponse.modelId)
          (pairs.map (fun p => p.1.id)))
    ∧ (∀ pairs : List (ModelDesc × ProviderOutcome),
        (∀ p ∈ pairs, ∃ text t, p.2 = ProviderOutcome.ok text t ∧ text ≠ "") →
        (getMultipleResponses pairs).length = pairs.length)
    ∧ (∀ (m : ModelDesc) (msg : String) (t : Nat),
        dispatchOne m (ProviderOutcome.err msg t)
          = ⟨m.id, "", 0, "Error: " ++ msg, t⟩)
    ∧ (getMultipleResponses
        [(⟨"gpt-4o", "general", "reasoning"⟩, ProviderOutcome.ok "Hello there friend" 100),
         (⟨"claude-3-7-sonnet-20250219", "general", "analysis"⟩,
            ProviderOutcome.err "rate limited" 50),
         (⟨"deepseek-coder", "code", "programming"⟩,
            ProviderOutcome.ok "Use a loop" 120)]).map ModelResponse.modelId
        = ["gpt-4o", "deepseek-coder"] := by
  refine ⟨?_, ?_, getMultipleResponses_length_all_ok, fun m msg t => rfl, by decide⟩
  · intro pairs
    calc (getMultipleResponses pairs).length
        ≤ (pairs.map (fun p => dispatchOne p.1 p.2)).length :=
          List.length_filter_le _ _
      _ = pairs.length := List.length_map _ _
  · intro pairs
    have h1 : List.Sublist (getMultipleResponses pairs)
        (pairs.map (fun p => dispatchOne p.1 p.2)) := List.filter_sublist _
    have h2 := h1.map ModelResponse.modelId
    rw [List.map_map] at h2
    have h3 : (ModelResponse.modelId ∘ fun p : ModelDesc × ProviderOutcome =>
        dispatchOne p.1 p.2) = fun p : ModelDesc × ProviderOutcome => p.1.id :=
      funext fun p => dispatchOne_modelId p.1 p.2
    rwa [h3] at h2

/-- C3 witness: a singleton round where the provider settles with
non-empty text keeps its one entry. -/
theorem dispatch_round_bounds_witness :
    (getMultipleResponses
        [(⟨"gpt-4o", "general", "reasoning"⟩, ProviderOutcome.ok "hi" 10)]).length = 1 :=
  dispatch_round_bounds.2.2.1
    [(⟨"gpt-4o", "general", "reasoning"⟩, ProviderOutcome.ok "hi" 10)]
    (fun p hp => by
      rw [List.mem_singleton] at hp
      subst hp
      exact ⟨"hi", 10, rfl, by decide⟩)

/-- C4 counterexample: for the requested category `"analysis"` the
selector does not put a provider with a matching category tag in the top
tier — the `switch` has no `analysis` case, so the default branch scores
an `analysis`-tagged provider 1 while a `general`-tagged provider with
an unrelated strength scores 2 and is ranked ahead of it. -/
theorem analysis_category_not_top_tier :
    modelFitness "analysis" ⟨"analyst-x", "analysis", "metrics"⟩ = 1
    ∧ modelFitness "analysis" ⟨"chat-y", "general", "current_events"⟩ = 2
    ∧ selectModelsForQuery "analysis" 2
        [⟨"analyst-x", "analysis", "metrics"⟩, ⟨"chat-y", "general", "current_events"⟩]
      = [⟨"chat-y", "general", "current_events"⟩, ⟨"analyst-x", "analysis", "metrics"⟩] :=
  ⟨by decide, by decide, by decide⟩

/-- C4 (amended): for the four requested categories that have their own
`switch` case — code, realtime, search, multimodal — a provider whose
category tag matches gets the top tier (3); the middle tier (2) goes to
`programming`-strength providers for code queries, `search`-tagged
providers for realtime queries, `realtime`-tagged providers for search
queries, and `vision`-strength providers for multimodal queries; every
other provider gets the base tier (1). Requested categories `analysis`
and `general` fall to the default branch, which scores `general`-tagged
providers 2 and everyone else 1 — so only for the four cased categories
is a matching provider guaranteed the head of the ranking, as witnessed
on the registry. -/
theorem selector_tiering_amended :
    (∀ m : ModelDesc, m.category = "code" → modelFitness "code" m = 3)
    ∧ (∀ m : ModelDesc, m.category = "realtime" → modelFitness "realtime" m = 3)
    ∧ (∀ m : ModelDesc, m.category = "search" → modelFitness "search" m = 3)
    ∧ (∀ m : ModelDesc, m.category = "multimodal" → modelFitness "multimodal" m = 3)
    ∧ (∀ m : ModelDesc, m.category ≠ "code" → m.strength = "programming" →
        modelFitness "code" m = 2)
    ∧ (∀ m : ModelDesc, m.category = "search" → modelFitness "realtime" m = 2)
    ∧ (∀ m : ModelDesc, m.category = "realtime" → modelFitness "search" m = 2)
    ∧ (∀ m : ModelDesc, m.category ≠ "multimodal" → m.strength = "vision" →
        modelFitness "multimodal" m = 2)
    ∧ (∀ m : ModelDesc, m.category ≠ "code" → m.strength ≠ "programming" →
        modelFitness "code" m = 1)
    ∧ (∀ m : ModelDesc, m.category ≠ "realtime" → m.category ≠ "search" →
        modelFitness "realtime" m = 1)
    ∧ (∀ m : ModelDesc, m.category ≠ "search" → m.category ≠ "realtime" →
        modelFitness "search" m = 1)
    ∧ (∀ m : ModelDesc, m.category ≠ "multimodal" → m.strength ≠ "vision" →
        modelFitness "multimodal" m = 1)
    ∧ (∀ m : ModelDesc,
        modelFitness "analysis" m = if m.category = "general" then 2 else 1)
    ∧ (∀ m : ModelDesc,
        modelFitness "general" m = if m.category = "general" then 2 else 1)
    ∧ (selectModelsForQuery "code" 6 coordinatorModels).map ModelDesc.id
        = ["deepseek-coder", "gpt-4o", "claude-3-7-sonnet-20250219", "grok-2-1212",
           "gemini-1.5-pro", "llama-3.1-sonar-large-128k-online"]
    ∧ (selectModelsForQuery "realtime" 6 coordinatorModels).map ModelDesc.id
        = ["grok-2-1212", "llama-3.1-sonar-large-128k-online", "gpt-4o",
           "claude-3-7-sonnet-20250219", "deepseek-coder", "gemini-1.5-pro"]
    ∧ (selectModelsForQuery "search" 6 coordinatorModels).map ModelDesc.id
        = ["llama-3.1-sonar-large-128k-online", "grok-2-1212", "gpt-4o",
           "claude-3-7-sonnet-20250219", "deepseek-coder", "gemini-1.5-pro"]
    ∧ (selectModelsForQuery "multimodal" 6 coordinatorModels).map ModelDesc.id
        = ["gemini-1.5-pro", "gpt-4o", "claude-3-7-sonnet-20250219", "deepseek-coder",
           "grok-2-1212", "llama-3.1-sonar-large-128k-online"]
    ∧ (selectModelsForQuery "general" 6 coordinatorModels).map ModelDesc.id
        = ["gpt-4o", "claude-3-7-sonnet-20250219", "deepseek-coder", "grok-2-1212",
           "gemini-1.5-pro", "llama-3.1-sonar-large-128k-online"] := by
  refine ⟨?_, ?_, ?_, ?_, ?_, ?_, ?_, ?_, ?_, ?_, ?_, ?_, ?_, ?_,
    by decide, by decide, by decide, by decide, by decide⟩ <;>
    intro m <;> intros <;> simp_all [modelFitness]

/-- C4 amended witness: the code-tagged registry provider is in the top
tier for code queries. -/
theorem selector_tiering_amended_witness :
    modelFitness "code" ⟨"deepseek-coder", "code", "programming"⟩ = 3 :=
  selector_tiering_amended.1 ⟨"deepseek-coder", "code", "programming"⟩ rfl

/-- C5: streaming mode invokes exactly one provider — the head of the
selector's ranking for the detected category — and relays that
adapter's event sequence unchanged to the caller, with no dispatch,
scoring, or stream merging. -/
theorem streaming_single_provider_passthrough :
    (∀ (primary : ModelDesc) (rest : List ModelDesc)
        (ev : ModelDesc → List StreamEvent),
        (generateStreamingConsensus (primary :: rest) ev).invoked = [primary.id]
        ∧ (generateStreamingConsensus (primary :: rest) ev).callerEvents = ev primary)
    ∧ (∀ (messages : List (String × String)) (minModels : Nat)
        (ev : ModelDesc → List StreamEvent),
        ∃ (primary : ModelDesc) (rest : List ModelDesc),
          selectModelsForQuery
              (analyzeQueryType (((messages.getLast?).map Prod.snd).getD ""))
              (if minModels = 0 then 3 else minModels) coordinatorModels
            = primary :: rest
          ∧ (generateBestResponseStreaming messages minModels ev).invoked = [primary.id]
          ∧ (generateBestResponseStreaming messages minModels ev).callerEvents
              = ev primary) := by
  refine ⟨fun primary rest ev => ⟨rfl, rfl⟩, ?_⟩
  intro messages minModels ev
  have hcount : 0 < (if minModels = 0 then 3 else minModels) := by
    cases minModels <;> simp
  have hlen : (selectModelsForQuery
      (analyzeQueryType (((messages.getLast?).map Prod.snd).getD ""))
      (if minModels = 0 then 3 else minModels) coordinatorModels).length
      = min (if minModels = 0 then 3 else minModels) 6 := by
    unfold selectModelsForQuery
    rw [List.length_take, sortByDesc_length]
    rfl
  have hpos : 0 < (selectModelsForQuery
      (analyzeQueryType (((messages.getLast?).map Prod.snd).getD ""))
      (if minModels = 0 then 3 else minModels) coordinatorModels).length := by
    rw [hlen]
    omega
  cases hsel : selectModelsForQuery
      (analyzeQueryType (((messages.getLast?).map Prod.snd).getD ""))
      (if minModels = 0 then 3 else minModels) coordinatorModels with
  | nil => rw [hsel] at hpos; simp at hpos
  | cons primary rest =>
      refine ⟨primary, rest, rfl, ?_, ?_⟩ <;>
        simp only [generateBestResponseStreaming, hsel] <;> rfl

/-- C7: the classifier agrees everywhere with the spec's first-match
scan of the fixed priority vocabulary (code > realtime > search >
multimodal > analysis, default `general`), and the claimed instances
hold: the debug query is `code`, the latest-news query is `realtime`,
and empty or whitespace-only input is `general`. -/
theorem classifier_first_match_priority :
    (∀ q : String, analyzeQueryType q = specClassify q)
    ∧ analyzeQueryType "Please debug this function" = "code"
    ∧ analyzeQueryType "What's the latest news today?" = "realtime"
    ∧ analyzeQueryType "" = "general"
    ∧ analyzeQueryType " \t\n  " = "general" := by
  refine ⟨?_, by decide, by decide, by decide, by decide⟩
  intro q
  simp only [analyzeQueryType, specClassify, specCategories, firstMatch,
    List.any_cons, List.any_nil, Bool.or_false, Bool.or_assoc]

/-- C8: the selector returns exactly `min count models.length` entries
(so never more, and never an error on under-supply — with too few
providers it returns the whole sorted registry), never introduces a
duplicate, and its sort is a stable descending sort: the output is
sorted by descending fitness while the entries of any fixed fitness
value keep their original registry order, making the selection
deterministic. -/
theorem selector_count_nodup_stable :
    (∀ (c : String) (count : Nat) (models : List ModelDesc),
        (selectModelsForQuery c count models).length = min count models.length)
    ∧ (∀ (c : String) (count : Nat) (models : List ModelDesc),
        models.Nodup → (selectModelsForQuery c count models).Nodup)
    ∧ (∀ (c : String) (v : Nat) (models : List ModelDesc),
        (sortByDesc (modelFitness c) models).filter
            (fun m => decide (modelFitness c m = v))
          = models.filter (fun m => decide (modelFitness c m = v)))
    ∧ (∀ (c : String) (models : List ModelDesc),
        List.Sorted (fun a b => modelFitness c b ≤ modelFitness c a)
          (sortByDesc (modelFitness c) models))
    ∧ (∀ (c : String) (count : Nat) (models : List ModelDesc),
        models.length ≤ count →
        selectModelsForQuery c count models = sortByDesc (modelFitness c) models) := by
  refine ⟨?_, ?_, ?_, ?_, ?_⟩
  · intro c count models
    unfold selectModelsForQuery
    rw [List.length_take, sortByDesc_length]
  · intro c count models h
    exact (((sortByDesc_perm (modelFitness c) models).nodup_iff).mpr h).sublist
      (List.take_sublist _ _)
  · exact fun c v models => sortByDesc_filter (modelFitness c) v models
  · exact fun c models => sortByDesc_sorted (modelFitness c) models
  · intro c count models h
    unfold selectModelsForQuery
    exact List.take_of_length_le (by rw [sortByDesc_length]; exact h)

/-- C8 witness: on the duplicate-free registry, a fan-out-3 code
selection is duplicate-free. -/
theorem selector_count_nodup_stable_witness :
    (selectModelsForQuery "code" 3 coordinatorModels).Nodup :=
  selector_count_nodup_stable.2.1 "code" 3 coordinatorModels (by decide)

/-- C10: every entry a dispatch round hands to a reducer has non-empty
response text and a score in [50, 100]: error entries score 0 but carry
empty text and are filtered out, and every surviving entry's score is
the clamped sum of the base score 50 and non-negative bonuses. -/
theorem dispatched_scores_invariant :
    ∀ (pairs : List (ModelDesc × ProviderOutcome)) (r : ModelResponse),
      r ∈ getMultipleResponses pairs →
      r.response ≠ "" ∧ 50 ≤ r.score ∧ r.score ≤ 100 := by
  intro pairs r hr
  unfold getMultipleResponses at hr
  obtain ⟨hmem, hpred⟩ := List.mem_filter.mp hr
  obtain ⟨p, hp, heq⟩ := List.mem_map.mp hmem
  have hpos : 0 < r.response.length := of_decide_eq_true hpred
  cases ho : p.2 with
  | err msg t =>
      rw [ho] at heq
      rw [← heq] at hpos
      have h00 : (0 : Nat) < 0 := hpos
      exact absurd h00 (by decide)
  | ok text t =>
      rw [ho] at heq
      subst heq
      refine ⟨?_, fifty_le_scoreResponse text p.1.category t,
        scoreResponse_le_100 text p.1.category t⟩
      show text ≠ ""
      intro h0
      have htext : 0 < text.length := hpos
      rw [h0] at htext
      exact absurd htext (by decide)

/-- C10 witness: the single surviving entry of a concrete round has
non-empty text and score 65 ∈ [50, 100]. -/
theorem dispatched_scores_invariant_witness :
    (⟨"gpt-4o", "hi", 65, "reasoning specialization", 10⟩ : ModelResponse).response ≠ ""
    ∧ 50 ≤ (⟨"gpt-4o", "hi", 65, "reasoning specialization", 10⟩ : ModelResponse).score
    ∧ (⟨"gpt-4o", "hi", 65, "reasoning specialization", 10⟩ : ModelResponse).score ≤ 100 :=
  dispatched_scores_invariant
    [(⟨"gpt-4o", "general", "reasoning"⟩, ProviderOutcome.ok "hi" 10)]
    ⟨"gpt-4o", "hi", 65, "reasoning specialization", 10⟩ (by decide)
